import Mathlib

/-!
# Shallow embedding of the `dns_resolver` Go package

The package (files `dns_resolver.go` and its revision with
`performWithRetry`/`LookupHostFull`) implements a retrying DNS client on
top of the external `miekg/dns` transport.  We embed the resolver state,
the connection cache, the retry loop and the record extraction as pure
Lean functions.  All external effects (the random source, `dns.Id()`,
`dns.Exchange`, `dns.DialTimeout`, `Conn.ReadMsg`) are supplied as
attempt-indexed oracles, so a run of the resolver is a deterministic
function of the oracle environment.  Go panics (nil-pointer dereference,
`rand.Intn(0)`) are modelled by an explicit `GoResult.panic` outcome.
-/

namespace DnsResolver

/-- DNS record types used by the code: `dns.TypeA = 1`, `dns.TypeCNAME = 5`. -/
def typeA : Nat := 1

def typeCNAME : Nat := 5

/-- Value of `dns.ClassINET` (1). -/
def classINET : Nat := 1

/-- An answer-section resource record, as the extraction loops see it:
the type switch distinguishes `*dns.A` (an IPv4 address), `*dns.CNAME`
(a target name) and every other concrete record type. -/
inductive Record
  | A (addr : String)
  | CNAME (target : String)
  | Other
  deriving DecidableEq, Repr

/-- The parts of `dns.Msg` the resolver reads or writes: `Id`,
`RecursionDesired`, `Question`, `Rcode` and the answer section. -/
structure Question where
  name : String
  qtype : Nat
  qclass : Nat
  deriving DecidableEq, Repr

structure Msg where
  id : Nat
  recursionDesired : Bool
  question : List Question
  rcode : Nat
  answer : List Record
  deriving DecidableEq, Repr

/-- Symbolic names of response codes, following `dns.RcodeToString`. A Go
map lookup at a missing key yields the zero value `""`. -/
def rcodeToString : Nat → String
  | 0 => "NOERROR"
  | 1 => "FORMERR"
  | 2 => "SERVFAIL"
  | 3 => "NXDOMAIN"
  | 4 => "NOTIMP"
  | 5 => "REFUSED"
  | 6 => "YXDOMAIN"
  | 7 => "YXRRSET"
  | 8 => "NXRRSET"
  | 9 => "NOTAUTH"
  | 10 => "NOTZONE"
  | _ => ""

/-- Value of `dns.RcodeSuccess` (0). -/
def rcodeSuccess : Nat := 0

/-- Go predicate `strings.HasSuffix(s, suffix)`: suffix test on the characters of the
string (the sources only ever compare ASCII strings, where the byte-wise
and character-wise tests agree). -/
def hasSuffix (s suffix : String) : Bool :=
  suffix.data.isSuffixOf s.data

/-- Go function `dns.Fqdn(s)`: append a trailing dot when one is not already
present (escaping subtleties of `IsFqdn` are irrelevant here). -/
def Fqdn (s : String) : String :=
  if hasSuffix s "." then s else s ++ "."

/-- Condition `strings.HasSuffix(err.Error(), "i/o timeout")` — the literal
classification the retry logic applies to a transport error string. -/
def isTimeoutErr (e : String) : Bool :=
  hasSuffix e "i/o timeout"

/-- Connection handles (`*dns.Conn`) are opaque to the resolver; we
identify them by a number. -/
abbrev Conn : Type := Nat

/-- The connection cache `conns map[string]*dns.Conn`, as an association
list; insertion prepends, lookup takes the first match. -/
abbrev Cache : Type := List (String × Conn)

/-- Go map lookup `conn, ok := r.conns[address]`. -/
def findConn (conns : Cache) (address : String) : Option Conn :=
  match conns with
  | [] => none
  | (a, c) :: rest => if a = address then some c else findConn rest address

/-- The `DnsResolver` struct: the `r *rand.Rand` and
`conns map[string]*dns.Conn` fields live outside the pure value — the
random source is an oracle and the cache is threaded explicitly. -/
structure Resolver where
  Servers : List String
  RetryTimes : Nat
  ReuseConnection : Bool
  deriving DecidableEq, Repr

/-- A Go computation that may panic (nil-pointer dereference,
`rand.Intn` with a non-positive bound). -/
inductive GoResult (α : Type)
  | ok (a : α)
  | panic
  deriving DecidableEq, Repr

/-- Constructor `New(servers)`: the loop over `range servers` appending `":53"`
rewrites the caller's slice in place, and the resolver then stores that
very slice.  `argAfter` is the content of the caller's slice once `New`
returns, which the in-place writes leave equal to the resolver's own
server list. -/
structure NewResult where
  resolver : Resolver
  argAfter : List String
  deriving DecidableEq, Repr

def New (servers : List String) : NewResult :=
  let mutated := servers.map (fun s => s ++ ":53")
  { resolver :=
      { Servers := mutated
        RetryTimes := mutated.length * 2
        ReuseConnection := false }
    argAfter := mutated }

/-- Method `getConnection(address)`, with the outcome of `dns.DialTimeout` for
this call supplied as `dial`.  Returns the Go pair `(conn, err)` as an
`Except`, together with the cache as it stands when the method returns. -/
def getConnection (conns : Cache) (address : String) (dial : Except String Conn) :
    Except String Conn × Cache :=
  match findConn conns address with
  | some conn => (.ok conn, conns)
  | none =>
    match dial with
    | .error e => (.error e, conns)
    | .ok c => (.ok c, (address, c) :: conns)

/-- The external effects consumed by one lookup, indexed by the attempt
number `k` (0 for the first attempt, `k+1` after `k` retries):
`rand k` is the draw of `r.r.Intn` (reduced modulo the bound),
`idGen k` the fresh transaction id of `dns.Id()`,
`exchange k q` the `(in, err)` pair produced by `dns.Exchange(q, server)`,
`dial k` the outcome of `dns.DialTimeout("udp", address, dnsTimeout)`
and `readMsg k` the `(msg, err)` pair of `connection.ReadMsg()`. -/
structure Oracles where
  rand : Nat → Nat
  idGen : Nat → Nat
  exchange : Nat → Msg → Option Msg × Option String
  dial : Nat → Except String Conn
  readMsg : Nat → Option Msg × Option String

/-- What one run of `performWithRetry` produces: the Go return pair
`(result *dns.Msg, err error)`, the connection cache when the call
returns, plus instrumentation — the number of attempts performed and the
server chosen by each attempt, in order. -/
structure PerformResult where
  msg : Option Msg
  err : Option String
  conns : Cache
  attempts : Nat
  trace : List String
  deriving DecidableEq, Repr

/-- Lines 104–108: the query message `m1` built afresh on every attempt
(`dns.Id()`, recursion desired, a single question for `dns.Fqdn(host)`
of the requested type, class INET). -/
def buildQuery (o : Oracles) (host : String) (reqType k : Nat) : Msg :=
  { id := o.idGen k
    recursionDesired := true
    question := [⟨Fqdn host, reqType, classINET⟩]
    rcode := 0
    answer := [] }

/-- Line 110: `server := r.Servers[r.r.Intn(len(r.Servers))]` — the
random draw of attempt `k`, reduced into range, indexes the whole list. -/
def chooseServer (o : Oracles) (rv : Resolver) (k : Nat) : String :=
  rv.Servers.getD (o.rand k % rv.Servers.length) ""

/-- The classification of one attempt, before the retry decision:
either the attempt ended in a timeout-classified transport error (the
only case in which lines 126–128 consult `triesLeft`), or it produced a
terminal `(result, err)` pair. -/
inductive AttemptOut
  | retryable (e : String) (conns : Cache)
  | final (res : PerformResult)
  deriving DecidableEq, Repr

/-- Lines 110–123 plus the terminal arms of the classification in lines
125–137: one attempt of `performWithRetry`/`lookupHost`, for a non-empty
server list.

Faithful points of the translation:
* in the `ReuseConnection` branch, `connection, err := r.getConnection(...)`
  declares a fresh `err` scoped to the `if` block, so the subsequent
  `in, err = connection.ReadMsg()` writes that shadowed variable and the
  outer `err` inspected by the classification in line 125 stays `nil`;
  the `WriteMsg` error is discarded outright.  The model therefore feeds
  `none` as the error into the classification in that branch, and a
  `getConnection` failure returns at once (line 117), bypassing the
  retry classification;
* a transport error whose text ends in `"i/o timeout"` is `retryable`
  (whether it then retries depends on `triesLeft`, handled by the
  caller); any other error, and the rcode/success arms, are `final`. -/
def oneAttempt (o : Oracles) (rv : Resolver) (conns : Cache) (host : String)
    (reqType k : Nat) : AttemptOut :=
  let server := chooseServer o rv k
  let dispatched : Except (String × Cache) (Option Msg × Option String × Cache) :=
    if rv.ReuseConnection then
      match getConnection conns server (o.dial k) with
      | (.error e, conns') => .error (e, conns')
      | (.ok _conn, conns') => .ok ((o.readMsg k).1, none, conns')
    else
      let (inMsg, err) := o.exchange k (buildQuery o host reqType k)
      .ok (inMsg, err, conns)
  match dispatched with
  | .error (e, conns') =>
    .final { msg := none, err := some e, conns := conns', attempts := 1, trace := [server] }
  | .ok (inMsg, errV, conns') =>
    match errV with
    | some e =>
      if isTimeoutErr e then
        .retryable e conns'
      else
        .final { msg := none, err := some e, conns := conns', attempts := 1, trace := [server] }
    | none =>
      match inMsg with
      | some m =>
        if m.rcode ≠ rcodeSuccess then
          .final { msg := none, err := some (rcodeToString m.rcode), conns := conns',
                   attempts := 1, trace := [server] }
        else
          .final { msg := some m, err := none, conns := conns', attempts := 1, trace := [server] }
      | none =>
        .final { msg := none, err := none, conns := conns', attempts := 1, trace := [server] }

/-- How an attempt's classification turns into the function's return
value when no retry takes place: a `retryable` timeout with the budget
exhausted falls through to `return result, err` (line 130), a terminal
outcome is returned as is. -/
def attemptResult (o : Oracles) (rv : Resolver) (k : Nat) : AttemptOut → GoResult PerformResult
  | .retryable e conns' =>
    .ok { msg := none, err := some e, conns := conns', attempts := 1,
          trace := [chooseServer o rv k] }
  | .final res => .ok res

/-- Function `performWithRetry(host, triesLeft, reqType)` (and the older
`lookupHost` body, which is the same algorithm with extraction inlined).

`r.Servers[r.r.Intn(len(r.Servers))]` panics when the list is empty
(`rand.Intn` requires a positive bound), hence `GoResult.panic`.  The
Go code guards the retry by the single condition
`timeout && triesLeft > 0`; here the split on `triesLeft` is lifted to
the top of the recursion, which decides the same four cases
identically: a timeout with `triesLeft > 0` decrements and recurses at
the next attempt index, a timeout with `triesLeft = 0` returns the
timeout error, and any `final` outcome is returned unchanged at either
budget. -/
def performWithRetry (o : Oracles) (rv : Resolver) (host : String) (reqType : Nat) :
    Cache → Nat → Nat → GoResult PerformResult
  | conns, k, 0 =>
    if rv.Servers.length = 0 then .panic
    else attemptResult o rv k (oneAttempt o rv conns host reqType k)
  | conns, k, t + 1 =>
    if rv.Servers.length = 0 then .panic
    else
      match oneAttempt o rv conns host reqType k with
      | .retryable _e conns' =>
        match performWithRetry o rv host reqType conns' (k + 1) t with
        | .panic => .panic
        | .ok pr =>
          .ok { pr with attempts := pr.attempts + 1, trace := chooseServer o rv k :: pr.trace }
      | .final res => .ok res

/-- The extraction loop of `LookupHost`:
`for _, record := range in.Answer { if t, ok := record.(*dns.A); ok { result = append(result, t.A) } }`. -/
def extractA (answer : List Record) : List String :=
  answer.foldl
    (fun acc record =>
      match record with
      | .A addr => acc ++ [addr]
      | _ => acc)
    []

/-- The extraction loop of `LookupHostFull`: the type switch appends A
addresses to `result` and CNAME targets to `resultCname`. -/
def extractFull (answer : List Record) : List String × List String :=
  answer.foldl
    (fun acc record =>
      match record with
      | .A addr => (acc.1 ++ [addr], acc.2)
      | .CNAME target => (acc.1, acc.2 ++ [target])
      | .Other => acc)
    ([], [])

/-- The contribution of one answer record to `LookupHost`: the address
of an A record, nothing otherwise. -/
def recordA : Record → Option String
  | .A addr => some addr
  | _ => none

/-- The contribution of one answer record to the CNAME sequence of
`LookupHostFull`: the target of a CNAME record, nothing otherwise. -/
def recordCname : Record → Option String
  | .CNAME target => some target
  | _ => none

/-- Result of `LookupHost`: the Go pair `([]net.IP, error)` plus the
cache and the instrumented attempt count. -/
structure LookupResult where
  ips : List String
  err : Option String
  conns : Cache
  attempts : Nat
  deriving DecidableEq, Repr

/-- Public method `LookupHost(host)`: run `performWithRetry(host, r.RetryTimes, dns.TypeA)`;
on error return `(nil, err)`; otherwise iterate over `in.Answer` — a
`nil` message here is a nil-pointer dereference, hence panic. -/
def LookupHost (o : Oracles) (rv : Resolver) (conns : Cache) (host : String) :
    GoResult LookupResult :=
  match performWithRetry o rv host typeA conns 0 rv.RetryTimes with
  | .panic => .panic
  | .ok pr =>
    match pr.err with
    | some e => .ok { ips := [], err := some e, conns := pr.conns, attempts := pr.attempts }
    | none =>
      match pr.msg with
      | none => .panic
      | some m =>
        .ok { ips := extractA m.answer, err := none, conns := pr.conns,
              attempts := pr.attempts }

/-- Result of `LookupHostFull`: the Go triple
`([]net.IP, []string, error)` plus cache and attempt count. -/
structure LookupFullResult where
  ips : List String
  cnames : List String
  err : Option String
  conns : Cache
  attempts : Nat
  deriving DecidableEq, Repr

/-- Public method `LookupHostFull(host)`: same retrying query (also of type A), then
the two-way type switch over the answer section. -/
def LookupHostFull (o : Oracles) (rv : Resolver) (conns : Cache) (host : String) :
    GoResult LookupFullResult :=
  match performWithRetry o rv host typeA conns 0 rv.RetryTimes with
  | .panic => .panic
  | .ok pr =>
    match pr.err with
    | some e =>
      .ok { ips := [], cnames := [], err := some e, conns := pr.conns,
            attempts := pr.attempts }
    | none =>
      match pr.msg with
      | none => .panic
      | some m =>
        .ok { ips := (extractFull m.answer).1, cnames := (extractFull m.answer).2,
              err := none, conns := pr.conns, attempts := pr.attempts }

/-!
## Helper lemmas

Unfolding and characterization lemmas about the retry loop, shared by the
claim theorems below.
-/

/-- With an empty server list, every call of the retry loop panics at the
server-selection step. -/
theorem performWithRetry_empty (o : Oracles) (rv : Resolver) (host : String)
    (reqType : Nat) (conns : Cache) (k t : Nat) (h : rv.Servers = []) :
    performWithRetry o rv host reqType conns k t = .panic := by
  cases t <;> · rw [performWithRetry]; simp [h]

/-- A non-empty server list has non-zero length. -/
theorem servers_length_ne_zero {rv : Resolver} (hne : rv.Servers ≠ []) :
    rv.Servers.length ≠ 0 := by
  simpa [List.length_eq_zero] using hne

/-- In one-shot mode, an exchange error classified as a timeout makes the
attempt retryable. -/
theorem oneAttempt_timeout (o : Oracles) (rv : Resolver) (conns : Cache) (host : String)
    (reqType k : Nat) (e : String) (hreuse : rv.ReuseConnection = false)
    (hx : (o.exchange k (buildQuery o host reqType k)).2 = some e)
    (ht : isTimeoutErr e = true) :
    oneAttempt o rv conns host reqType k = .retryable e conns := by
  rcases hxe : o.exchange k (buildQuery o host reqType k) with ⟨inMsg, errV⟩
  rw [hxe] at hx
  simp only at hx
  subst hx
  simp [oneAttempt, hreuse, hxe, ht]

/-- In one-shot mode, an exchange error that is not a timeout is terminal,
returned as the attempt's error. -/
theorem oneAttempt_error (o : Oracles) (rv : Resolver) (conns : Cache) (host : String)
    (reqType k : Nat) (e : String) (hreuse : rv.ReuseConnection = false)
    (hx : (o.exchange k (buildQuery o host reqType k)).2 = some e)
    (ht : isTimeoutErr e = false) :
    oneAttempt o rv conns host reqType k =
      .final { msg := none, err := some e, conns := conns, attempts := 1,
               trace := [chooseServer o rv k] } := by
  rcases hxe : o.exchange k (buildQuery o host reqType k) with ⟨inMsg, errV⟩
  rw [hxe] at hx
  simp only at hx
  subst hx
  simp [oneAttempt, hreuse, hxe, ht]

/-- In one-shot mode, a successful exchange with a non-success response
code is terminal with the protocol error naming the rcode. -/
theorem oneAttempt_rcode (o : Oracles) (rv : Resolver) (conns : Cache) (host : String)
    (reqType k : Nat) (m : Msg) (hreuse : rv.ReuseConnection = false)
    (hx : o.exchange k (buildQuery o host reqType k) = (some m, none))
    (hrc : m.rcode ≠ rcodeSuccess) :
    oneAttempt o rv conns host reqType k =
      .final { msg := none, err := some (rcodeToString m.rcode), conns := conns, attempts := 1,
               trace := [chooseServer o rv k] } := by
  simp [oneAttempt, hreuse, hx, hrc]

/-- In one-shot mode, a successful exchange with the success response
code is terminal, returning the message with no error. -/
theorem oneAttempt_ok (o : Oracles) (rv : Resolver) (conns : Cache) (host : String)
    (reqType k : Nat) (m : Msg) (hreuse : rv.ReuseConnection = false)
    (hx : o.exchange k (buildQuery o host reqType k) = (some m, none))
    (hrc : m.rcode = rcodeSuccess) :
    oneAttempt o rv conns host reqType k =
      .final { msg := some m, err := none, conns := conns, attempts := 1,
               trace := [chooseServer o rv k] } := by
  simp [oneAttempt, hreuse, hx, hrc]

/-- A terminal attempt ends the loop with its result, at any remaining
budget. -/
theorem performWithRetry_final_step (o : Oracles) (rv : Resolver) (host : String)
    (reqType : Nat) (conns : Cache) (k : Nat) (res : PerformResult)
    (hlen : rv.Servers.length ≠ 0)
    (h1 : oneAttempt o rv conns host reqType k = .final res) :
    ∀ t, performWithRetry o rv host reqType conns k t = .ok res := by
  intro t
  cases t <;> · rw [performWithRetry]; simp [hlen, h1, attemptResult]

/-- A timeout with the budget exhausted returns the timeout error. -/
theorem performWithRetry_exhausted (o : Oracles) (rv : Resolver) (host : String)
    (reqType : Nat) (conns : Cache) (k : Nat) (e : String) (conns' : Cache)
    (hlen : rv.Servers.length ≠ 0)
    (h1 : oneAttempt o rv conns host reqType k = .retryable e conns') :
    performWithRetry o rv host reqType conns k 0 =
      .ok { msg := none, err := some e, conns := conns', attempts := 1,
            trace := [chooseServer o rv k] } := by
  rw [performWithRetry]; simp [hlen, h1, attemptResult]

/-- A timeout with budget remaining recurses into the next attempt. -/
theorem performWithRetry_retry_step (o : Oracles) (rv : Resolver) (host : String)
    (reqType : Nat) (conns : Cache) (k t : Nat) (e : String) (conns' : Cache)
    (hlen : rv.Servers.length ≠ 0)
    (h1 : oneAttempt o rv conns host reqType k = .retryable e conns') :
    performWithRetry o rv host reqType conns k (t + 1) =
      match performWithRetry o rv host reqType conns' (k + 1) t with
      | .panic => .panic
      | .ok pr =>
        .ok { pr with
              attempts := pr.attempts + 1
              trace := chooseServer o rv k :: pr.trace } := by
  rw [performWithRetry]; simp [hlen, h1]

/-- When every exchange reports a timeout, the loop spends its whole
budget: `t` retries after the first attempt, returning the last timeout
error, with the cache untouched. -/
theorem performWithRetry_all_timeouts (o : Oracles) (rv : Resolver) (host : String)
    (reqType : Nat) (hreuse : rv.ReuseConnection = false)
    (hlen : rv.Servers.length ≠ 0)
    (ht : ∀ k m, ∃ e, (o.exchange k m).2 = some e ∧ isTimeoutErr e = true) :
    ∀ t k conns, ∃ e tr, performWithRetry o rv host reqType conns k t =
        .ok { msg := none, err := some e, conns := conns, attempts := t + 1, trace := tr }
      ∧ isTimeoutErr e = true := by
  intro t
  induction t with
  | zero =>
    intro k conns
    obtain ⟨e, hx, hto⟩ := ht k (buildQuery o host reqType k)
    exact ⟨e, [chooseServer o rv k],
      performWithRetry_exhausted o rv host reqType conns k e conns hlen
        (oneAttempt_timeout o rv conns host reqType k e hreuse hx hto), hto⟩
  | succ t ih =>
    intro k conns
    obtain ⟨e, hx, hto⟩ := ht k (buildQuery o host reqType k)
    obtain ⟨e', tr', hrec, hto'⟩ := ih (k + 1) conns
    refine ⟨e', chooseServer o rv k :: tr', ?_, hto'⟩
    rw [performWithRetry_retry_step o rv host reqType conns k t e conns hlen
      (oneAttempt_timeout o rv conns host reqType k e hreuse hx hto), hrec]

/-- Every terminal attempt result records exactly one attempt, at the
server chosen by that attempt's random draw. -/
theorem oneAttempt_final_shape (o : Oracles) (rv : Resolver) (conns : Cache) (host : String)
    (reqType k : Nat) (res : PerformResult)
    (h : oneAttempt o rv conns host reqType k = .final res) :
    res.attempts = 1 ∧ res.trace = [chooseServer o rv k] := by
  rw [oneAttempt] at h
  simp only at h
  repeat
    first
      | (cases h; exact ⟨rfl, rfl⟩)
      | split at h
      | simp at h

/-- Any completed run chose the server of its `i`-th attempt by the
`i`-th random draw over the whole server list, one draw per attempt. -/
theorem performWithRetry_trace (o : Oracles) (rv : Resolver) (host : String) (reqType : Nat)
    (hlen : rv.Servers.length ≠ 0) :
    ∀ t k conns pr, performWithRetry o rv host reqType conns k t = .ok pr →
      1 ≤ pr.attempts ∧
      pr.trace = (List.range pr.attempts).map (fun i => chooseServer o rv (k + i)) := by
  intro t
  induction t with
  | zero =>
    intro k conns pr h
    rw [performWithRetry] at h
    simp only [hlen, if_neg, ite_false] at h
    cases ha : oneAttempt o rv conns host reqType k with
    | retryable e conns2 =>
      rw [ha] at h
      simp only [attemptResult] at h
      cases h
      simp [List.range_succ]
    | final res =>
      rw [ha] at h
      simp only [attemptResult] at h
      cases h
      obtain ⟨h1, h2⟩ := oneAttempt_final_shape o rv conns host reqType k _ ha
      refine ⟨by omega, ?_⟩
      rw [h2, h1]
      simp [List.range_succ]
  | succ t ih =>
    intro k conns pr h
    rw [performWithRetry] at h
    simp only [hlen, if_neg, ite_false] at h
    cases ha : oneAttempt o rv conns host reqType k with
    | retryable e conns2 =>
      simp only [ha] at h
      cases hrec : performWithRetry o rv host reqType conns2 (k + 1) t with
      | panic =>
        rw [hrec] at h
        simp at h
      | ok pr2 =>
        rw [hrec] at h
        cases h
        obtain ⟨h1, h2⟩ := ih (k + 1) conns2 pr2 hrec
        dsimp only
        refine ⟨by omega, ?_⟩
        rw [h2, List.range_succ_eq_map, List.map_cons, List.map_map]
        congr 1
        simp only [List.map_inj_left, List.mem_range, Function.comp_apply]
        intro a _
        congr 1
        omega
    | final res =>
      simp only [ha] at h
      cases h
      obtain ⟨h1, h2⟩ := oneAttempt_final_shape o rv conns host reqType k _ ha
      refine ⟨by omega, ?_⟩
      rw [h2, h1]
      simp [List.range_succ]

/-- The append-loop of `LookupHost` collects exactly the A-record
addresses, in answer order. -/
theorem extractA_eq (answer : List Record) : extractA answer = answer.filterMap recordA := by
  suffices h : ∀ acc : List String,
      answer.foldl
        (fun acc record =>
          match record with
          | .A addr => acc ++ [addr]
          | _ => acc)
        acc = acc ++ answer.filterMap recordA by
    simpa [extractA] using h []
  induction answer with
  | nil => simp
  | cons r rest ih =>
    intro acc
    cases r <;> simp [recordA, ih]

/-- The two-way loop of `LookupHostFull` collects the A addresses and
the CNAME targets, each in answer order. -/
theorem extractFull_eq (answer : List Record) :
    extractFull answer = (answer.filterMap recordA, answer.filterMap recordCname) := by
  suffices h : ∀ acc : List String × List String,
      answer.foldl
        (fun acc record =>
          match record with
          | .A addr => (acc.1 ++ [addr], acc.2)
          | .CNAME target => (acc.1, acc.2 ++ [target])
          | .Other => acc)
        acc = (acc.1 ++ answer.filterMap recordA, acc.2 ++ answer.filterMap recordCname) by
    simpa [extractFull] using h ([], [])
  induction answer with
  | nil => simp
  | cons r rest ih =>
    intro acc
    cases r <;> simp [recordA, recordCname, ih]

/-!
## Claim theorems
-/

/-- C1: the claim states that in `ReuseConnection` mode a send/receive
error is classified exactly as in one-shot mode — a timeout with budget
remaining retries, any other error propagates to the caller.  The code
disagrees: `connection, err := r.getConnection(server)` shadows the
function's `err`, so the `ReadMsg` error is discarded.  At the failing
input below, `ReadMsg` reports an i/o timeout with a budget of 4, yet
the run makes exactly one attempt and returns neither message nor error,
and the caller then panics dereferencing the nil message instead of
receiving the error. -/
theorem claim1_reuse_error_discarded :
    (performWithRetry
        ⟨fun _ => 0, fun _ => 0, fun _ _ => (none, none), fun _ => .ok 1,
         fun _ => (none, some "read udp 127.0.0.1:53: i/o timeout")⟩
        { Servers := ["127.0.0.1:53"], RetryTimes := 4, ReuseConnection := true }
        "example.com" typeA [] 0 4 =
      .ok { msg := none, err := none, conns := [("127.0.0.1:53", 1)], attempts := 1,
            trace := ["127.0.0.1:53"] })
    ∧ (LookupHost
        ⟨fun _ => 0, fun _ => 0, fun _ _ => (none, none), fun _ => .ok 1,
         fun _ => (none, some "read udp 127.0.0.1:53: connection refused")⟩
        { Servers := ["127.0.0.1:53"], RetryTimes := 4, ReuseConnection := true }
        [] "example.com" = .panic) :=
  ⟨rfl, rfl⟩

/-- C2 (counterexample): the claim states that an entry already carrying a
port is left unchanged by `New`; in fact `New ["1.2.3.4:5353"]` yields
the server list `["1.2.3.4:5353:53"]`. -/
theorem claim2_counterexample :
    (New ["1.2.3.4:5353"]).resolver.Servers = ["1.2.3.4:5353:53"] ∧
    (New ["1.2.3.4:5353"]).resolver.Servers ≠ ["1.2.3.4:5353"] := by
  refine ⟨rfl, ?_⟩
  decide

/-- C2 (amended): for every non-empty server list, `New` sets the retry
budget to exactly twice the list length and appends `":53"` to every
entry unconditionally — also to entries that already specify a port. -/
theorem claim2_new_spec (servers : List String) (_hne : servers ≠ []) :
    (New servers).resolver.Servers = servers.map (fun s => s ++ ":53") ∧
    (New servers).resolver.RetryTimes = 2 * servers.length := by
  refine ⟨rfl, ?_⟩
  simp [New, Nat.mul_comm]

/-- C2 (witness): the amended claim at the one-element list
`["1.2.3.4"]`. -/
theorem claim2_witness :
    (New ["1.2.3.4"]).resolver.Servers = ["1.2.3.4:53"] ∧
    (New ["1.2.3.4"]).resolver.RetryTimes = 2 * 1 := by
  have h := claim2_new_spec ["1.2.3.4"] (by decide)
  simpa using h

/-- C3 (counterexample): the claim states that a lookup on an empty
server list fails with a configuration error rather than crashing; in
fact `LookupHost` panics (the server-selection step runs
`rand.Intn(0)`), and no error value is produced. -/
theorem claim3_counterexample :
    LookupHost
      ⟨fun _ => 0, fun _ => 0, fun _ _ => (none, none), fun _ => .error "e",
       fun _ => (none, none)⟩
      { Servers := [], RetryTimes := 0, ReuseConnection := false } [] "example.com" =
      .panic :=
  rfl

/-- C3 (amended): with an empty server list, every lookup reaches the
server-selection step and panics there, for any oracle, budget and
cache; no configuration error is returned. -/
theorem claim3_empty_servers_panic (o : Oracles) (rv : Resolver) (conns : Cache)
    (host : String) (reqType k t : Nat) (h : rv.Servers = []) :
    performWithRetry o rv host reqType conns k t = .panic ∧
    LookupHost o rv conns host = .panic := by
  refine ⟨performWithRetry_empty o rv host reqType conns k t h, ?_⟩
  rw [LookupHost, performWithRetry_empty o rv host typeA conns 0 rv.RetryTimes h]

/-- C3 (witness): the amended claim at a concrete empty-list resolver. -/
theorem claim3_witness :
    performWithRetry
      ⟨fun _ => 0, fun _ => 0, fun _ _ => (none, none), fun _ => .error "e",
       fun _ => (none, none)⟩
      { Servers := [], RetryTimes := 7, ReuseConnection := false } "h" typeA [] 0 7 =
      .panic := by
  have h := claim3_empty_servers_panic
    ⟨fun _ => 0, fun _ => 0, fun _ _ => (none, none), fun _ => .error "e",
     fun _ => (none, none)⟩
    { Servers := [], RetryTimes := 7, ReuseConnection := false } [] "h" typeA 0 7 rfl
  exact h.1

/-- C4: in one-shot mode, when every transport exchange reports an i/o
timeout, `LookupHost` with retry budget `b = RetryTimes` performs
exactly `b + 1` attempts and returns a timeout error with an empty
result sequence; a budget of 0 means exactly one attempt. -/
theorem claim4_all_timeouts (o : Oracles) (rv : Resolver) (conns : Cache) (host : String)
    (hreuse : rv.ReuseConnection = false) (hne : rv.Servers ≠ [])
    (ht : ∀ k m, ∃ e, (o.exchange k m).2 = some e ∧ isTimeoutErr e = true) :
    ∃ e, LookupHost o rv conns host =
        .ok { ips := [], err := some e, conns := conns, attempts := rv.RetryTimes + 1 } ∧
      isTimeoutErr e = true := by
  obtain ⟨e, tr, hperf, hto⟩ :=
    performWithRetry_all_timeouts o rv host typeA hreuse (servers_length_ne_zero hne) ht
      rv.RetryTimes 0 conns
  refine ⟨e, ?_, hto⟩
  rw [LookupHost, hperf]

/-- C4 (witness): a fake transport that always times out, two servers
worth of budget (RetryTimes = 2), hence 3 attempts. -/
theorem claim4_witness :
    ∃ e, LookupHost
        ⟨fun _ => 0, fun _ => 0, fun _ _ => (none, some "i/o timeout"), fun _ => .error "d",
         fun _ => (none, none)⟩
        { Servers := ["8.8.8.8:53"], RetryTimes := 2, ReuseConnection := false } [] "x" =
        .ok { ips := [], err := some e, conns := [], attempts := 3 } ∧
      isTimeoutErr e = true := by
  have h := claim4_all_timeouts
    ⟨fun _ => 0, fun _ => 0, fun _ _ => (none, some "i/o timeout"), fun _ => .error "d",
     fun _ => (none, none)⟩
    { Servers := ["8.8.8.8:53"], RetryTimes := 2, ReuseConnection := false } [] "x"
    rfl (by decide) (fun _ _ => ⟨"i/o timeout", rfl, by decide⟩)
  simpa using h

/-- C5: in one-shot mode, only the i/o timeout retries.  A non-timeout
transport error on the first attempt terminates the lookup with that
error after exactly one attempt, whatever the remaining budget; a
successful exchange whose response carries a non-success rcode
terminates after exactly one attempt with a protocol error carrying the
rcode's symbolic name. -/
theorem claim5_terminal_errors (o : Oracles) (rv : Resolver) (conns : Cache) (host : String)
    (hreuse : rv.ReuseConnection = false) (hne : rv.Servers ≠ []) :
    (∀ e, (o.exchange 0 (buildQuery o host typeA 0)).2 = some e → isTimeoutErr e = false →
      LookupHost o rv conns host =
        .ok { ips := [], err := some e, conns := conns, attempts := 1 })
    ∧ (∀ m, o.exchange 0 (buildQuery o host typeA 0) = (some m, none) → m.rcode ≠ rcodeSuccess →
      LookupHost o rv conns host =
        .ok { ips := [], err := some (rcodeToString m.rcode), conns := conns, attempts := 1 }) := by
  constructor
  · intro e hx hnt
    have h1 := performWithRetry_final_step o rv host typeA conns 0 _
      (servers_length_ne_zero hne)
      (oneAttempt_error o rv conns host typeA 0 e hreuse hx hnt) rv.RetryTimes
    rw [LookupHost, h1]
  · intro m hx hrc
    have h1 := performWithRetry_final_step o rv host typeA conns 0 _
      (servers_length_ne_zero hne)
      (oneAttempt_rcode o rv conns host typeA 0 m hreuse hx hrc) rv.RetryTimes
    rw [LookupHost, h1]

/-- C5 (witness): a connection-refused error and an NXDOMAIN response,
each terminal after one attempt despite a budget of 5. -/
theorem claim5_witness :
    LookupHost
      ⟨fun _ => 0, fun _ => 0, fun _ _ => (none, some "connection refused"), fun _ => .error "d",
       fun _ => (none, none)⟩
      { Servers := ["8.8.8.8:53"], RetryTimes := 5, ReuseConnection := false } [] "x" =
      .ok { ips := [], err := some "connection refused", conns := [], attempts := 1 } ∧
    LookupHost
      ⟨fun _ => 0, fun _ => 0,
       fun _ _ => (some { id := 0, recursionDesired := true, question := [], rcode := 3,
                          answer := [] }, none),
       fun _ => .error "d", fun _ => (none, none)⟩
      { Servers := ["8.8.8.8:53"], RetryTimes := 5, ReuseConnection := false } [] "x" =
      .ok { ips := [], err := some "NXDOMAIN", conns := [], attempts := 1 } := by
  have h1 := (claim5_terminal_errors
    ⟨fun _ => 0, fun _ => 0, fun _ _ => (none, some "connection refused"), fun _ => .error "d",
     fun _ => (none, none)⟩
    { Servers := ["8.8.8.8:53"], RetryTimes := 5, ReuseConnection := false } [] "x"
    rfl (by decide)).1 "connection refused" rfl (by decide)
  have h2 := (claim5_terminal_errors
    ⟨fun _ => 0, fun _ => 0,
     fun _ _ => (some { id := 0, recursionDesired := true, question := [], rcode := 3,
                        answer := [] }, none),
     fun _ => .error "d", fun _ => (none, none)⟩
    { Servers := ["8.8.8.8:53"], RetryTimes := 5, ReuseConnection := false } [] "x"
    rfl (by decide)).2
    { id := 0, recursionDesired := true, question := [], rcode := 3, answer := [] }
    rfl (by decide)
  exact ⟨h1, h2⟩

/-- C6: on a successful response, `LookupHost` returns the address of
every A record of the answer section in answer order (other types
ignored), `LookupHostFull` returns the A addresses and the CNAME
targets as two sequences in answer order, and no record contributes to
both sequences. -/
theorem claim6_extraction (o : Oracles) (rv : Resolver) (conns : Cache) (host : String) (m : Msg)
    (hreuse : rv.ReuseConnection = false) (hne : rv.Servers ≠ [])
    (hx : o.exchange 0 (buildQuery o host typeA 0) = (some m, none))
    (hrc : m.rcode = rcodeSuccess) :
    LookupHost o rv conns host =
      .ok { ips := m.answer.filterMap recordA, err := none, conns := conns, attempts := 1 }
    ∧ LookupHostFull o rv conns host =
      .ok { ips := m.answer.filterMap recordA, cnames := m.answer.filterMap recordCname,
            err := none, conns := conns, attempts := 1 }
    ∧ (∀ r : Record, recordA r = none ∨ recordCname r = none) := by
  have h1 := performWithRetry_final_step o rv host typeA conns 0 _
    (servers_length_ne_zero hne)
    (oneAttempt_ok o rv conns host typeA 0 m hreuse hx hrc) rv.RetryTimes
  refine ⟨?_, ?_, ?_⟩
  · rw [LookupHost, h1]
    simp [extractA_eq]
  · rw [LookupHostFull, h1]
    simp [extractFull_eq]
  · intro r
    cases r <;> simp [recordA, recordCname]

/-- C6 (witness): two A records and a CNAME, extracted in answer order
into the two sequences. -/
theorem claim6_witness :
    LookupHostFull
      ⟨fun _ => 0, fun _ => 0,
       fun _ _ => (some { id := 0, recursionDesired := true, question := [], rcode := 0,
                          answer := [.A "10.0.0.1", .CNAME "alias.example.com.",
                                     .A "10.0.0.2", .Other] }, none),
       fun _ => .error "d", fun _ => (none, none)⟩
      { Servers := ["8.8.8.8:53"], RetryTimes := 5, ReuseConnection := false } [] "x" =
      .ok { ips := ["10.0.0.1", "10.0.0.2"], cnames := ["alias.example.com."],
            err := none, conns := [], attempts := 1 } := by
  have h := (claim6_extraction
    ⟨fun _ => 0, fun _ => 0,
     fun _ _ => (some { id := 0, recursionDesired := true, question := [], rcode := 0,
                        answer := [.A "10.0.0.1", .CNAME "alias.example.com.",
                                   .A "10.0.0.2", .Other] }, none),
     fun _ => .error "d", fun _ => (none, none)⟩
    { Servers := ["8.8.8.8:53"], RetryTimes := 5, ReuseConnection := false } [] "x"
    { id := 0, recursionDesired := true, question := [], rcode := 0,
      answer := [.A "10.0.0.1", .CNAME "alias.example.com.", .A "10.0.0.2", .Other] }
    rfl (by decide) rfl rfl).2.1
  simpa [recordA, recordCname] using h

/-- C7: a successful exchange with the success response code and an
empty answer section yields an empty result sequence and no error. -/
theorem claim7_empty_answer (o : Oracles) (rv : Resolver) (conns : Cache) (host : String)
    (m : Msg) (hreuse : rv.ReuseConnection = false) (hne : rv.Servers ≠ [])
    (hx : o.exchange 0 (buildQuery o host typeA 0) = (some m, none))
    (hrc : m.rcode = rcodeSuccess) (hans : m.answer = []) :
    LookupHost o rv conns host =
      .ok { ips := [], err := none, conns := conns, attempts := 1 } := by
  have h1 := performWithRetry_final_step o rv host typeA conns 0 _
    (servers_length_ne_zero hne)
    (oneAttempt_ok o rv conns host typeA 0 m hreuse hx hrc) rv.RetryTimes
  rw [LookupHost, h1]
  simp [extractA_eq, hans]

/-- C7 (witness): an empty answer with rcode 0 yields `([], nil)`. -/
theorem claim7_witness :
    LookupHost
      ⟨fun _ => 0, fun _ => 0,
       fun _ _ => (some { id := 0, recursionDesired := true, question := [], rcode := 0,
                          answer := [] }, none),
       fun _ => .error "d", fun _ => (none, none)⟩
      { Servers := ["8.8.8.8:53"], RetryTimes := 5, ReuseConnection := false } [] "x" =
      .ok { ips := [], err := none, conns := [], attempts := 1 } := by
  exact claim7_empty_answer
    ⟨fun _ => 0, fun _ => 0,
     fun _ _ => (some { id := 0, recursionDesired := true, question := [], rcode := 0,
                        answer := [] }, none),
     fun _ => .error "d", fun _ => (none, none)⟩
    { Servers := ["8.8.8.8:53"], RetryTimes := 5, ReuseConnection := false } [] "x"
    { id := 0, recursionDesired := true, question := [], rcode := 0, answer := [] }
    rfl (by decide) rfl rfl rfl

/-- C8: `getConnection` returns the cached connection without consulting
the dialer when one is present; otherwise it dials, caching and
returning the connection on success, and returning the dial error with
the cache unchanged on failure; and no call ever removes an existing
cache entry. -/
theorem claim8_getConnection_contract (conns : Cache) (address : String) :
    (∀ c, findConn conns address = some c →
      ∀ dial, getConnection conns address dial = (.ok c, conns))
    ∧ (∀ e, findConn conns address = none →
      getConnection conns address (.error e) = (.error e, conns))
    ∧ (∀ c, findConn conns address = none →
      getConnection conns address (.ok c) = (.ok c, (address, c) :: conns)
      ∧ findConn ((address, c) :: conns) address = some c)
    ∧ (∀ dial a c, findConn conns a = some c →
      findConn (getConnection conns address dial).2 a = some c) := by
  refine ⟨?_, ?_, ?_, ?_⟩
  · intro c hc dial
    simp [getConnection, hc]
  · intro e hnone
    simp [getConnection, hnone]
  · intro c hnone
    refine ⟨by simp [getConnection, hnone], by simp [findConn]⟩
  · intro dial a c hc
    rcases hfind : findConn conns address with _ | c0
    · rcases dial with e | c1
      · simp [getConnection, hfind, hc]
      · have hne : address ≠ a := by
          intro heq
          rw [heq] at hfind
          rw [hfind] at hc
          exact Option.noConfusion hc
        simp [getConnection, hfind, findConn, hne, hc]
    · simp [getConnection, hfind, hc]

/-- C8 (witness): a cache hit ignores a failing dialer, and a miss with
a successful dial caches the new connection. -/
theorem claim8_witness :
    getConnection [("a:53", 7)] "a:53" (.error "dial fail") = (.ok 7, [("a:53", 7)]) ∧
    getConnection [] "b:53" (.ok 9) = (.ok 9, [("b:53", 9)]) := by
  have h := claim8_getConnection_contract [("a:53", 7)] "a:53"
  have h2 := claim8_getConnection_contract [] "b:53"
  exact ⟨h.1 7 (by decide) (.error "dial fail"), (h2.2.2.1 9 (by decide)).1⟩

/-- C9: every attempt of a completed run, including each retry, selects
its server by a fresh draw of the random source over the entire server
list — attempt `i` uses draw `i`, with no exclusion of previously tried
servers; and concretely, with two servers and a constant random source,
the retry after a timeout selects the very server that just timed
out. -/
theorem claim9_fresh_random_selection :
    (∀ (o : Oracles) (rv : Resolver) (host : String) (reqType t k : Nat) (conns : Cache)
        (pr : PerformResult), rv.Servers ≠ [] →
        performWithRetry o rv host reqType conns k t = .ok pr →
        pr.trace = (List.range pr.attempts).map
          (fun i => rv.Servers.getD (o.rand (k + i) % rv.Servers.length) ""))
    ∧ performWithRetry
        ⟨fun _ => 0, fun _ => 0, fun _ _ => (none, some "i/o timeout"), fun _ => .error "d",
         fun _ => (none, none)⟩
        { Servers := ["a:53", "b:53"], RetryTimes := 1, ReuseConnection := false }
        "h" typeA [] 0 1 =
      .ok { msg := none, err := some "i/o timeout", conns := [], attempts := 2,
            trace := ["a:53", "a:53"] } := by
  constructor
  · intro o rv host reqType t k conns pr hne hp
    have h :=
      (performWithRetry_trace o rv host reqType (servers_length_ne_zero hne) t k conns pr hp).2
    simpa [chooseServer] using h
  · rfl

/-- C9 (witness): the general part applied to the concrete two-server
timeout run. -/
theorem claim9_witness :
    ({ msg := none, err := some "i/o timeout", conns := [], attempts := 2,
       trace := ["a:53", "a:53"] } : PerformResult).trace =
      (List.range
        ({ msg := none, err := some "i/o timeout", conns := [], attempts := 2,
           trace := ["a:53", "a:53"] } : PerformResult).attempts).map
        (fun i => (["a:53", "b:53"] : List String).getD
          ((fun _ => (0 : Nat)) (0 + i) % (["a:53", "b:53"] : List String).length) "") :=
  claim9_fresh_random_selection.1
    ⟨fun _ => 0, fun _ => 0, fun _ _ => (none, some "i/o timeout"), fun _ => .error "d",
     fun _ => (none, none)⟩
    { Servers := ["a:53", "b:53"], RetryTimes := 1, ReuseConnection := false }
    "h" typeA 1 0 []
    { msg := none, err := some "i/o timeout", conns := [], attempts := 2,
      trace := ["a:53", "a:53"] }
    (by decide) rfl

/-- C10: `New` rewrites its caller's slice — after construction the
argument holds every entry with `":53"` appended, the resolver's server
list is that same content, and for a non-empty input the caller's slice
no longer holds its original strings. -/
theorem claim10_new_mutates_argument (servers : List String) :
    (New servers).argAfter = (New servers).resolver.Servers ∧
    (New servers).argAfter = servers.map (fun s => s ++ ":53") ∧
    (servers ≠ [] → (New servers).argAfter ≠ servers) := by
  refine ⟨rfl, rfl, ?_⟩
  intro hne heq
  rcases servers with _ | ⟨s, rest⟩
  · exact hne rfl
  · have hhead : s ++ ":53" = s := by
      have := congrArg (fun l => l.headI) heq
      simpa using this
    have hlen := congrArg String.length hhead
    rw [String.length_append] at hlen
    have h3 : (":53" : String).length = 3 := rfl
    omega

/-- C10 (witness): the caller's one-element slice is changed by `New`. -/
theorem claim10_witness :
    (New ["8.8.8.8"]).argAfter ≠ ["8.8.8.8"] := by
  have h := claim10_new_mutates_argument ["8.8.8.8"]
  exact h.2.2 (by decide)

end DnsResolver
